import Mathlib

/-!
Verification of the DykScribe submission pipeline (`app.py`): input
validators, the Q&A marker matching, the transcription retry loop, and the
session-state reconciliation engine (processing and persist steps), with
external calls (speech-to-text, text structuring, database insert) modelled
as oracles.
-/

namespace DykScribe

/-! ## Line splitting and marker matching

`splitLines` embeds Python `text.split(chr(10))`, the line decomposition
under which the multiline-anchored regex searches of `app.py` operate:
a pattern with no newline characters matches at a `re.MULTILINE` line start
exactly when some element of the split list begins with it. -/

def splitLines : List Char → List (List Char)
  | [] => [[]]
  | c :: rest =>
    if c = '\n' then [] :: splitLines rest
    else
      match splitLines rest with
      | [] => [[c]]
      | l :: ls => (c :: l) :: ls

def lines (t : String) : List (List Char) := splitLines t.data

/-- Embedding of a match of the regex `^H(\d*)\:` (for `H` the character
`Q` or `A`) at the start of one line: the head character, then a greedy run
of digits, then a colon.  Greediness is exact here because a colon is not a
digit, so the regex never backtracks into the digit run. -/
def matchesMarker (head : Char) (l : List Char) : Bool :=
  match l with
  | [] => false
  | c :: rest =>
    if c = head then
      match rest.dropWhile Char.isDigit with
      | d :: _ => d = ':'
      | [] => false
    else false

/-- Spec-side reading of the question/answer marker: the line is literally
`H:` or `H<digits>:` followed by anything. -/
def MarkerLine (head : Char) (l : List Char) : Prop :=
  ∃ ds rest, (∀ c ∈ ds, c.isDigit = true) ∧ l = head :: (ds ++ (':' :: rest))

/-! ## Input validators (`app.py` lines 16-55) -/

inductive Reason where
  | noData
  | tooLarge
  | invalidFormat
  | tooShort
  | valid
deriving DecidableEq, Repr

/-- Embedding of `is_valid_qa_text` (app.py:16-22): nonempty text with at least one
`Q`-marker line and at least one `A`-marker line. -/
def is_valid_qa_text (text : String) : Bool :=
  if text.data = [] then false
  else ((lines text).any (matchesMarker 'Q')) && ((lines text).any (matchesMarker 'A'))

def pdfMagic : List Nat := [0x25, 0x50, 0x44, 0x46, 0x2D]

/-- Embedding of `validate_pdf_file` (app.py:25-39); bytes as `List Nat`, the returned
message abstracted to its `Reason`. -/
def validate_pdf_file (file_bytes : List Nat) : Bool × Reason :=
  if file_bytes = [] then (false, .noData)
  else if file_bytes.length > 25 * 1024 * 1024 then (false, .tooLarge)
  else if file_bytes.take pdfMagic.length ≠ pdfMagic then (false, .invalidFormat)
  else (true, .valid)

/-- Embedding of `validate_audio_file` (app.py:41-55). -/
def validate_audio_file (file_bytes : List Nat) : Bool × Reason :=
  if file_bytes = [] then (false, .noData)
  else if file_bytes.length > 200 * 1024 * 1024 then (false, .tooLarge)
  else if file_bytes.length < 1000 then (false, .tooShort)
  else (true, .valid)

/-! ## Submit guard (app.py:447-535) -/

def min_audio_length : Nat := 1000

/-- Embedding of `valid_audio` (app.py:493): a recorded blob or an uploaded file strictly
longer than `min_audio_length`. -/
def valid_audio (wav_audio_data file_bytes : Option (List Nat)) : Bool :=
  (match wav_audio_data with
   | some w => decide (w.length > min_audio_length)
   | none => false) ||
  (match file_bytes with
   | some f => decide (f.length > min_audio_length)
   | none => false)

/-- Embedding of `can_submit` (app.py:526). -/
def can_submit (qa_valid va : Bool) : Bool :=
  (qa_valid && !va) || (va && !qa_valid)

/-! ## Scoring (app.py:611-614) -/

/-- Embedding of `num_questions` (app.py:612): count of multiline matches of `^Q\d*:`. -/
def num_questions (t : String) : Nat :=
  ((lines t).filter (matchesMarker 'Q')).length

/-- Embedding of `num_answers` (app.py:613). -/
def num_answers (t : String) : Nat :=
  ((lines t).filter (matchesMarker 'A')).length

/-- Embedding of `points_awarded` (app.py:614): one point per question. -/
def points_awarded (t : String) : Nat := num_questions t * 1

/-! ## Marker lemmas -/

lemma dropWhile_digits_of_all (ds tail : List Char) (h : ∀ c ∈ ds, c.isDigit = true) :
    (ds ++ tail).dropWhile Char.isDigit = tail.dropWhile Char.isDigit := by
  induction ds with
  | nil => rfl
  | cons c cs ih =>
    have hc : c.isDigit = true := h c (by simp)
    simp only [List.cons_append, List.dropWhile_cons, hc, if_true]
    exact ih (fun c hc => h c (by simp [hc]))

lemma matchesMarker_iff (head : Char) (l : List Char) :
    matchesMarker head l = true ↔ MarkerLine head l := by
  constructor
  · intro hm
    match l with
    | [] => simp [matchesMarker] at hm
    | c :: rest =>
      simp only [matchesMarker] at hm
      by_cases hc : c = head
      · subst hc
        rw [if_pos rfl] at hm
        cases hdrop : rest.dropWhile Char.isDigit with
        | nil => rw [hdrop] at hm; exact absurd hm (by simp)
        | cons d tail =>
          rw [hdrop] at hm
          have hd : d = ':' := by
            simpa using hm
          subst hd
          refine ⟨rest.takeWhile Char.isDigit, tail,
            fun c hc => List.mem_takeWhile_imp hc, ?_⟩
          have h2 := List.takeWhile_append_dropWhile (p := Char.isDigit) (l := rest)
          rw [hdrop] at h2
          rw [h2]
      · rw [if_neg hc] at hm
        exact absurd hm (by simp)
  · rintro ⟨ds, rest, hds, rfl⟩
    simp only [matchesMarker, if_pos rfl]
    rw [dropWhile_digits_of_all ds (':' :: rest) hds]
    simp [List.dropWhile]

/-! ## Transcription retry loop (app.py:65-91)

`transcribe_audio_enhanced` loops `attempt` over `range(max_retries)`; each
attempt either returns the transcript or raises; a failed non-final attempt
sleeps `1 + attempt` seconds and continues; the final failure re-raises.
The external speech-to-text call is an oracle from the attempt index to a
result; the `time.sleep` calls are collected as a list of delays. -/

def transcribeLoop (oracle : Nat → Except String String) (max_retries attempt : Nat) :
    Except String String × List Nat :=
  match oracle attempt with
  | .ok t => (.ok t, [])
  | .error e =>
    if h : attempt < max_retries - 1 then
      let r := transcribeLoop oracle max_retries (attempt + 1)
      (r.1, (1 + attempt) :: r.2)
    else
      (.error e, [])
termination_by max_retries - attempt
decreasing_by omega

/-- Embedding of `transcribe_audio_enhanced`: returns `none` (Python falls through the
loop and returns `None`) when `max_retries = 0`; otherwise the loop result
from attempt 0, paired with the sleeps performed. -/
def transcribe_audio_enhanced (oracle : Nat → Except String String) (max_retries : Nat) :
    Option (Except String String × List Nat) :=
  if max_retries = 0 then none else some (transcribeLoop oracle max_retries 0)

/-! ## Session state and reconciliation engine (app.py:93-110, 537-709) -/

structure SubmissionData where
  UserName : String
  Role : String
  EntryDateTime : String
  Manufacturer : String
  EquipmentType : String
  Model : String
  Specifications2 : String
  Specifications3 : String
  Notes : String
  NumQuestions : Nat
  NumAnswers : Nat
  PointsAwarded : Nat
  QAText : String
  Transcript : String
deriving DecidableEq, Repr

/-- One row of the `QAForms` table. -/
structure StoredRecord where
  data : SubmissionData
  AudioBlob : Option (List Nat)
  ManualPDF : Option (List Nat)
deriving DecidableEq, Repr

/-- The `st.session_state` fields owned by the pipeline (app.py:94-108).
Python `None`/`{}` are modelled by `none`; `transcribed = None` after the
reset is falsy, modelled as `false`. -/
structure SessionState where
  processing : Bool
  transcribed : Bool
  submitted : Bool
  submission_data : Option SubmissionData
  audio_bytes_to_save : Option (List Nat)
  manual_pdf : Option (List Nat)
  qa_text : String
deriving DecidableEq, Repr

/-- The form fields outside the session state that feed `submission_data`. -/
structure FormInputs where
  user_name : String
  role : String
  entry_datetime : String
  manufacturer : String
  equipment_type : String
  model : String
  spec2 : String
  spec3 : String
  notes : String
deriving DecidableEq, Repr

inductive StructureMode where
  | fromTranscript
  | fromTypedText
deriving DecidableEq, Repr

/-- External calls the engine can make, recorded for frame reasoning. -/
inductive ExtCall where
  | transcribeCall
  | structureCall (m : StructureMode)
  | storeInsert
deriving DecidableEq, Repr

/-- Embedding of `insert_submission` (app.py:265-297): one transactional insert appending
a row; any underlying failure (modelled by `db_fails`) leaves the store
unchanged and returns `False`. -/
def insert_submission (db_fails : Bool) (store : List StoredRecord)
    (data : SubmissionData) (audio_bytes pdf_bytes : Option (List Nat)) :
    List StoredRecord × Bool :=
  if db_fails then (store, false)
  else (store ++ [{ data := data, AudioBlob := audio_bytes, ManualPDF := pdf_bytes }], true)

/-- The draft staged at app.py:617-632. -/
def stagedData (form : FormInputs) (transcript qa : String) : SubmissionData :=
  { UserName := form.user_name
    Role := form.role
    EntryDateTime := form.entry_datetime
    Manufacturer := form.manufacturer
    EquipmentType := form.equipment_type
    Model := form.model
    Specifications2 := form.spec2
    Specifications3 := form.spec3
    Notes := form.notes
    NumQuestions := num_questions qa
    NumAnswers := num_answers qa
    PointsAwarded := points_awarded qa
    QAText := qa
    Transcript := transcript }

structure StepOutcome where
  state : SessionState
  calls : List ExtCall
deriving DecidableEq, Repr

/-- Tail of the submit handler (app.py:611-635): store counts, score, text
and transcript in the session and mark the draft transcribed (Finalized). -/
def finalizeDraft (form : FormInputs) (transcript qa : String)
    (audio_sel : Option (List Nat)) (s : SessionState) : SessionState :=
  { s with
    qa_text := qa
    submission_data := some (stagedData form transcript qa)
    audio_bytes_to_save := audio_sel
    transcribed := true
    processing := false }

/-- The submit handler body (app.py:537-640): the `Processing` transition.
`va`/`qa_valid` are the guard booleans of app.py:493/523; `audio_sel` is
`audio_bytes_to_save` (app.py:494); the transcription and structuring
capabilities are oracles.  The handler calls `transcribe_audio_enhanced`
with its default `max_retries = 3`. -/
def submitStep (form : FormInputs) (va qa_valid : Bool)
    (audio_sel : Option (List Nat))
    (transcribeOracle : Nat → Except String String)
    (structureOracle : StructureMode → String → Except String String)
    (s : SessionState) : StepOutcome :=
  let s1 : SessionState := { s with processing := true }
  if va then
    match transcribe_audio_enhanced transcribeOracle 3 with
    | some (.ok transcript, _) =>
      match structureOracle .fromTranscript transcript with
      | .ok qa2 =>
        { state := finalizeDraft form transcript qa2 audio_sel s1
          calls := [.transcribeCall, .structureCall .fromTranscript] }
      | .error _ =>
        { state := { s1 with processing := false }
          calls := [.transcribeCall, .structureCall .fromTranscript] }
    | _ =>
      { state := { s1 with processing := false }
        calls := [.transcribeCall] }
  else if qa_valid then
    match structureOracle .fromTypedText s.qa_text with
    | .ok qa2 =>
      { state := finalizeDraft form "" qa2 audio_sel s1
        calls := [.structureCall .fromTypedText] }
    | .error _ =>
      { state := { s1 with processing := false }
        calls := [.structureCall .fromTypedText] }
  else
    { state := finalizeDraft form "" s.qa_text audio_sel s1
      calls := [] }

structure PersistOutcome where
  state : SessionState
  store : List StoredRecord
  calls : List ExtCall
deriving DecidableEq, Repr

/-- The record a persist attempt would insert for a finalized session. -/
def recordOf (s : SessionState) (d : SubmissionData) : StoredRecord :=
  { data := d, AudioBlob := s.audio_bytes_to_save, ManualPDF := s.manual_pdf }

/-- The persist handler (app.py:643, 676, 684-709): the confirm button is
rendered only when `transcribed` is set and is disabled while `processing`;
on insert success the session is cleared back to a fresh draft
(app.py:700-703); on failure only the `processing` flag is dropped.  An
empty `submission_data` makes the insert itself fail (the `KeyError` is
caught inside `insert_submission`, which returns `False`). -/
def persistStep (db_fails : Bool) (s : SessionState) (store : List StoredRecord) :
    PersistOutcome :=
  if !s.transcribed || s.processing then
    { state := s, store := store, calls := [] }
  else
    let s1 : SessionState := { s with processing := true }
    match s.submission_data with
    | none =>
      { state := { s1 with processing := false }, store := store, calls := [.storeInsert] }
    | some d =>
      let r := insert_submission db_fails store d s.audio_bytes_to_save s.manual_pdf
      if r.2 then
        { state :=
            { s1 with
              submitted := true
              processing := false
              transcribed := false
              submission_data := none
              audio_bytes_to_save := none
              manual_pdf := none
              qa_text := "" }
          store := r.1
          calls := [.storeInsert] }
      else
        { state := { s1 with processing := false }, store := r.1, calls := [.storeInsert] }

/-! ## Retry-loop lemmas -/

lemma transcribeLoop_ok (oracle : Nat → Except String String) (max_retries k : Nat)
    (t : String) (hk : 1 ≤ k) (hmax : k ≤ max_retries)
    (hfail : ∀ i, i < k - 1 → ∃ e, oracle i = Except.error e)
    (hok : oracle (k - 1) = Except.ok t) :
    ∀ n a, a + n = k - 1 →
      transcribeLoop oracle max_retries a =
        (Except.ok t, List.range' (1 + a) n) := by
  intro n
  induction n with
  | zero =>
    intro a ha
    have haeq : a = k - 1 := by omega
    subst haeq
    rw [transcribeLoop, hok]
    simp
  | succ m ih =>
    intro a ha
    obtain ⟨e, he⟩ := hfail a (by omega)
    rw [transcribeLoop, he]
    simp only [dif_pos (show a < max_retries - 1 by omega)]
    rw [ih (a + 1) (by omega)]
    rw [List.range'_succ]
    simp only [Prod.mk.injEq, true_and, List.cons.injEq]
    rw [show 1 + (a + 1) = 1 + a + 1 by omega]

lemma transcribeLoop_err (oracle : Nat → Except String String) (max_retries : Nat)
    (elast : String) (hmax : 1 ≤ max_retries)
    (hfail : ∀ i, i < max_retries → ∃ e, oracle i = Except.error e)
    (hlast : oracle (max_retries - 1) = Except.error elast) :
    ∀ n a, a + n = max_retries - 1 →
      transcribeLoop oracle max_retries a =
        (Except.error elast, List.range' (1 + a) n) := by
  intro n
  induction n with
  | zero =>
    intro a ha
    have haeq : a = max_retries - 1 := by omega
    subst haeq
    rw [transcribeLoop, hlast]
    simp only [dif_neg (show ¬ (max_retries - 1 < max_retries - 1) by omega)]
    simp
  | succ m ih =>
    intro a ha
    obtain ⟨e, he⟩ := hfail a (by omega)
    rw [transcribeLoop, he]
    simp only [dif_pos (show a < max_retries - 1 by omega)]
    rw [ih (a + 1) (by omega)]
    rw [List.range'_succ]
    simp only [Prod.mk.injEq, true_and, List.cons.injEq]
    rw [show 1 + (a + 1) = 1 + a + 1 by omega]

/-! ## Claim theorems -/

/-- Claim C1: the submit guard equals the exclusive-or of the two validity
flags; in particular it is false when both inputs are present and false
when neither is. -/
theorem can_submit_xor :
    ∀ qa_valid va : Bool,
      can_submit qa_valid va = Bool.xor qa_valid va ∧
      can_submit true true = false ∧ can_submit false false = false := by
  decide

/-- Claim C5: the score equals the number of question-marker lines of the
structured text (a natural number, zero when there are none); a line counts
exactly when it is literally `Q:` or `Q<digits>:` followed by anything; and
the score depends only on the question lines, hence not on the answer
count. -/
theorem points_awarded_eq_question_count :
    ∀ t : String,
      points_awarded t = ((lines t).filter (matchesMarker 'Q')).length ∧
      (∀ l : List Char, matchesMarker 'Q' l = true ↔ MarkerLine 'Q' l) ∧
      (∀ t2 : String,
        (lines t).filter (matchesMarker 'Q') = (lines t2).filter (matchesMarker 'Q') →
        points_awarded t = points_awarded t2) := by
  intro t
  refine ⟨by simp [points_awarded, num_questions], fun l => matchesMarker_iff 'Q' l, ?_⟩
  intro t2 h
  simp [points_awarded, num_questions, h]

theorem points_awarded_eq_question_count_witness :
    points_awarded "Q1: a\nA1: b\nQ2: c" = 2 ∧
    points_awarded "Q1: a\nA1: b\nQ2: c" = points_awarded "Q1: a\nQ2: c" := by
  have h := points_awarded_eq_question_count "Q1: a\nA1: b\nQ2: c"
  refine ⟨?_, h.2.2 "Q1: a\nQ2: c" (by decide)⟩
  rw [h.1]
  decide

/-- Claim C6: `is_valid_qa_text` is true exactly when some line starts with
a question marker and some line starts with an answer marker — pairing and
order are not required; in particular a line exactly `Q1:` and a line
exactly `A1:` anywhere in the text suffice. -/
theorem is_valid_qa_text_iff :
    ∀ text : String,
      (is_valid_qa_text text = true ↔
        ((∃ l ∈ lines text, MarkerLine 'Q' l) ∧ (∃ l ∈ lines text, MarkerLine 'A' l))) ∧
      (['Q', '1', ':'] ∈ lines text → ['A', '1', ':'] ∈ lines text →
        is_valid_qa_text text = true) := by
  intro text
  constructor
  · by_cases h0 : text.data = []
    · rw [is_valid_qa_text, if_pos h0]
      constructor
      · intro h
        exact absurd h (by simp)
      · rintro ⟨⟨l, hl, hm⟩, -⟩
        rw [lines, h0] at hl
        simp [splitLines] at hl
        subst hl
        obtain ⟨ds, rest, -, habs⟩ := hm
        exact absurd habs (by simp)
    · rw [is_valid_qa_text, if_neg h0]
      simp [List.any_eq_true, matchesMarker_iff]
  · intro hq ha
    have h0 : text.data ≠ [] := by
      intro h
      rw [lines, h] at hq
      simp [splitLines] at hq
    rw [is_valid_qa_text, if_neg h0]
    refine (Bool.and_eq_true _ _).mpr ⟨?_, ?_⟩
    · exact List.any_eq_true.mpr ⟨_, hq, by decide⟩
    · exact List.any_eq_true.mpr ⟨_, ha, by decide⟩

theorem is_valid_qa_text_iff_witness :
    is_valid_qa_text "intro\nA1:\nmiddle\nQ1:\nend" = true := by
  exact (is_valid_qa_text_iff "intro\nA1:\nmiddle\nQ1:\nend").2
    (by decide) (by decide)

/-- Claim C7 is false as stated: the size check runs before the signature
check, so an oversized byte string that does not start with the document
signature is rejected as too large, not as invalid format. -/
def bigNonPdf : List Nat := List.replicate (25 * 1024 * 1024 + 1) 65

theorem validate_pdf_large_not_invalid :
    bigNonPdf.take pdfMagic.length ≠ pdfMagic ∧
    validate_pdf_file bigNonPdf = (false, Reason.tooLarge) ∧
    validate_pdf_file bigNonPdf ≠ (false, Reason.invalidFormat) := by
  have hlen : bigNonPdf.length = 25 * 1024 * 1024 + 1 := by
    rw [bigNonPdf, List.length_replicate]
  have hne : bigNonPdf ≠ [] := by
    intro h
    rw [h] at hlen
    exact absurd hlen (by decide)
  have hmin : min pdfMagic.length (25 * 1024 * 1024 + 1) = 5 := by
    have h5 : pdfMagic.length = 5 := rfl
    omega
  have htake : bigNonPdf.take pdfMagic.length = List.replicate 5 65 := by
    rw [bigNonPdf, List.take_replicate, hmin]
  have hval : validate_pdf_file bigNonPdf = (false, Reason.tooLarge) := by
    rw [validate_pdf_file, if_neg hne, if_pos (by omega)]
  exact ⟨by rw [htake]; decide, hval, by rw [hval]; simp⟩

/-- Claim C7 (amended): for nonempty byte strings within the 25 MiB cap
whose leading bytes do not match the document signature,
`validate_pdf_file` reports the invalid-format failure; oversized input is
reported as too large first, and empty input as missing data. -/
theorem validate_pdf_invalid_format (bs : List Nat)
    (hne : bs ≠ []) (hlen : bs.length ≤ 25 * 1024 * 1024)
    (hmagic : bs.take pdfMagic.length ≠ pdfMagic) :
    validate_pdf_file bs = (false, Reason.invalidFormat) := by
  rw [validate_pdf_file, if_neg hne, if_neg (by omega), if_pos hmagic]

theorem validate_pdf_invalid_format_witness :
    validate_pdf_file [65] = (false, Reason.invalidFormat) :=
  validate_pdf_invalid_format [65] (by decide) (by decide) (by decide)

/-- Claim C8 is false as stated: the empty byte string is shorter than 1000
bytes yet is rejected as missing data, not as too short. -/
theorem validate_audio_empty_not_tooShort :
    List.length ([] : List Nat) < 1000 ∧
    validate_audio_file [] = (false, Reason.noData) ∧
    validate_audio_file [] ≠ (false, Reason.tooShort) := by
  refine ⟨by decide, by decide, by decide⟩

/-- Claim C8 (amended): every nonempty audio byte string shorter than 1000
bytes is rejected as too short; the empty byte string is rejected as
missing data instead. -/
theorem validate_audio_short (bs : List Nat) (hne : bs ≠ [])
    (hlen : bs.length < 1000) :
    validate_audio_file bs = (false, Reason.tooShort) := by
  rw [validate_audio_file, if_neg hne, if_neg (by omega), if_pos hlen]

theorem validate_audio_short_witness :
    validate_audio_file [0] = (false, Reason.tooShort) :=
  validate_audio_short [0] (by decide) (by decide)

/-- Claim C10: a 1000-byte audio blob passes `validate_audio_file` (the
too-short failure needs strictly fewer than 1000 bytes) but never enables
submission: the submit guard needs strictly more than
`min_audio_length = 1000` bytes, so `valid_audio` is false for it and,
absent typed text, `can_submit` stays false. -/
theorem audio_boundary_disagreement (bs : List Nat) (hlen : bs.length = 1000) :
    validate_audio_file bs = (true, Reason.valid) ∧
    valid_audio (some bs) none = false ∧
    valid_audio none (some bs) = false ∧
    can_submit false (valid_audio none (some bs)) = false := by
  have hne : bs ≠ [] := by
    intro h
    rw [h] at hlen
    simp at hlen
  rw [validate_audio_file, if_neg hne, if_neg (by omega), if_neg (by omega)]
  refine ⟨rfl, ?_, ?_, ?_⟩
  · simp [valid_audio, min_audio_length, hlen]
  · simp [valid_audio, min_audio_length, hlen]
  · simp [can_submit, valid_audio, min_audio_length, hlen]

theorem audio_boundary_disagreement_witness :
    validate_audio_file (List.replicate 1000 0) = (true, Reason.valid) ∧
    valid_audio none (some (List.replicate 1000 0)) = false := by
  have h := audio_boundary_disagreement (List.replicate 1000 0)
    (by rw [List.length_replicate])
  exact ⟨h.1, h.2.2.1⟩

/-- Claim C3: if the underlying transcription call fails on attempts
`1..k-1` and succeeds on attempt `k ≤ maxAttempts`, `transcribe` returns
the k-th transcript, sleeping `1 + attemptIndex` units between consecutive
attempts (`[1, 2, …]`, as `(List.range (k-1)).map (1 + ·)`); if all
`maxAttempts` attempts fail it surfaces the last underlying error, with no
sleep after the final failure (only `maxAttempts - 1` delays). -/
theorem transcribe_retry_spec (oracle : Nat → Except String String)
    (max_retries k : Nat) (t : String) :
    (1 ≤ k → k ≤ max_retries →
      (∀ i, i < k - 1 → ∃ e, oracle i = Except.error e) →
      oracle (k - 1) = Except.ok t →
      transcribe_audio_enhanced oracle max_retries =
        some (Except.ok t, (List.range (k - 1)).map (fun i => 1 + i))) ∧
    (1 ≤ max_retries →
      (∀ i, i < max_retries → ∃ e, oracle i = Except.error e) →
      ∃ err, oracle (max_retries - 1) = Except.error err ∧
        transcribe_audio_enhanced oracle max_retries =
          some (Except.error err, (List.range (max_retries - 1)).map (fun i => 1 + i))) := by
  constructor
  · intro hk hmax hfail hok
    rw [transcribe_audio_enhanced, if_neg (by omega)]
    rw [transcribeLoop_ok oracle max_retries k t hk hmax hfail hok (k - 1) 0 (by omega)]
    rw [List.range'_eq_map_range]
  · intro hmax hfail
    obtain ⟨err, herr⟩ := hfail (max_retries - 1) (by omega)
    refine ⟨err, herr, ?_⟩
    rw [transcribe_audio_enhanced, if_neg (by omega)]
    rw [transcribeLoop_err oracle max_retries err hmax hfail herr (max_retries - 1) 0
      (by omega)]
    rw [List.range'_eq_map_range]

def oracleSucceedsThird (i : Nat) : Except String String :=
  if i < 2 then Except.error "fail" else Except.ok "done"

def oracleAlwaysFails (_i : Nat) : Except String String := Except.error "boom"

theorem transcribe_retry_spec_witness :
    transcribe_audio_enhanced oracleSucceedsThird 3 = some (Except.ok "done", [1, 2]) ∧
    transcribe_audio_enhanced oracleAlwaysFails 3 = some (Except.error "boom", [1, 2]) := by
  constructor
  · have h := (transcribe_retry_spec oracleSucceedsThird 3 3 "done").1 (by omega) (by omega)
      (fun i hi => ⟨"fail", by rw [oracleSucceedsThird, if_pos (by omega)]⟩)
      (by rw [oracleSucceedsThird]; rfl)
    simpa using h
  · obtain ⟨err, herr, hres⟩ := (transcribe_retry_spec oracleAlwaysFails 3 3 "x").2
      (by omega) (fun i _ => ⟨"boom", rfl⟩)
    have herrb : err = "boom" := by
      rw [oracleAlwaysFails] at herr
      exact (Except.error.injEq _ _ ▸ congrArg id herr) ▸ rfl
    subst herrb
    simpa using hres

/-- Claim C2 fails in one respect: the submission store performs no
duplicate suppression of its own — two invocations of `insert_submission`
with the same finalized record and no failure store two identical rows. -/
def dupData : SubmissionData :=
  { UserName := "u", Role := "r", EntryDateTime := "t", Manufacturer := "m",
    EquipmentType := "e", Model := "mo", Specifications2 := "s2",
    Specifications3 := "s3", Notes := "n", NumQuestions := 1, NumAnswers := 1,
    PointsAwarded := 1, QAText := "Q1: q\nA1: a", Transcript := "" }

theorem insert_submission_no_dedup :
    (insert_submission false
        (insert_submission false [] dupData none none).1 dupData none none).1 =
      [{ data := dupData, AudioBlob := none, ManualPDF := none },
       { data := dupData, AudioBlob := none, ManualPDF := none }] := by
  rfl

/-- Claim C2 (amended): invoking the persist step twice on the same
finalized session without intervening edits adds exactly one stored
record — the first success resets the session (clearing `transcribed`), so
the second invocation is blocked and is a complete no-op that performs no
store call; the suppression lives in the engine reset, not in the store
insert itself. -/
theorem persist_twice_single_record
    (s : SessionState) (store : List StoredRecord) (d : SubmissionData)
    (htr : s.transcribed = true) (hpr : s.processing = false)
    (hdata : s.submission_data = some d) :
    (persistStep false s store).store = store ++ [recordOf s d] ∧
    persistStep false (persistStep false s store).state (persistStep false s store).store
      = { state := (persistStep false s store).state,
          store := (persistStep false s store).store,
          calls := [] } := by
  obtain ⟨p, tr, su, sd, ab, mp, qt⟩ := s
  simp only at htr hpr hdata
  subst htr hpr hdata
  simp [persistStep, insert_submission, recordOf]

def finalizedSession : SessionState :=
  { processing := false, transcribed := true, submitted := false,
    submission_data := some dupData, audio_bytes_to_save := none,
    manual_pdf := none, qa_text := "Q1: q\nA1: a" }

theorem persist_twice_single_record_witness :
    (persistStep false finalizedSession []).store
        = [recordOf finalizedSession dupData] ∧
    (persistStep false (persistStep false finalizedSession []).state
        (persistStep false finalizedSession []).store).store
      = [recordOf finalizedSession dupData] := by
  have h := persist_twice_single_record finalizedSession [] dupData rfl rfl rfl
  refine ⟨by simpa using h.1, ?_⟩
  rw [h.2]
  simpa using h.1

/-- Claim C4: a failing store write returns the engine to the finalized
state with the whole draft untouched (`transcribed` still set, session
unchanged — not back to collecting input), having made only the store
call; retrying the persist step on the unchanged draft performs only the
store insert — no transcription and no structuring call — and stores the
unchanged record. -/
theorem persist_store_failure_preserves_finalized
    (s : SessionState) (store : List StoredRecord) (d : SubmissionData)
    (htr : s.transcribed = true) (hpr : s.processing = false)
    (hdata : s.submission_data = some d) :
    (persistStep true s store).state = s ∧
    (persistStep true s store).store = store ∧
    (persistStep true s store).calls = [ExtCall.storeInsert] ∧
    (persistStep false (persistStep true s store).state (persistStep true s store).store).store
      = store ++ [recordOf s d] ∧
    (persistStep false (persistStep true s store).state (persistStep true s store).store).calls
      = [ExtCall.storeInsert] := by
  obtain ⟨p, tr, su, sd, ab, mp, qt⟩ := s
  simp only at htr hpr hdata
  subst htr hpr hdata
  simp [persistStep, insert_submission, recordOf]

theorem persist_store_failure_preserves_finalized_witness :
    (persistStep true finalizedSession []).state = finalizedSession ∧
    (persistStep false (persistStep true finalizedSession []).state
        (persistStep true finalizedSession []).store).store
      = [recordOf finalizedSession dupData] := by
  have h := persist_store_failure_preserves_finalized finalizedSession [] dupData rfl rfl rfl
  exact ⟨h.1, by simpa using h.2.2.2.1⟩

/-- Claim C9: when the structuring call fails — in `FromTranscript` mode or
in `FromTypedText` mode — the processing step aborts without storing any
structured text: the session's stored Q&A text and staged submission data
(which carries the stored transcript) are exactly as they were before the
step began. -/
theorem structuring_failure_preserves_draft
    (form : FormInputs) (va qa_valid : Bool) (audio_sel : Option (List Nat))
    (transcribeOracle : Nat → Except String String)
    (structureOracle : StructureMode → String → Except String String)
    (s : SessionState)
    (hchan : va || qa_valid = true)
    (hfail : ∀ m inp, ∃ e, structureOracle m inp = Except.error e) :
    (submitStep form va qa_valid audio_sel transcribeOracle structureOracle s).state.qa_text
      = s.qa_text ∧
    (submitStep form va qa_valid audio_sel transcribeOracle
        structureOracle s).state.submission_data
      = s.submission_data ∧
    ExtCall.storeInsert ∉
      (submitStep form va qa_valid audio_sel transcribeOracle structureOracle s).calls := by
  cases va with
  | false =>
    cases qa_valid with
    | false => simp at hchan
    | true =>
      obtain ⟨e, he⟩ := hfail .fromTypedText s.qa_text
      simp [submitStep, he]
  | true =>
    cases htr : transcribe_audio_enhanced transcribeOracle 3 with
    | none => simp [submitStep, htr]
    | some r =>
      obtain ⟨res, delays⟩ := r
      cases res with
      | ok tr =>
        obtain ⟨e, he⟩ := hfail .fromTranscript tr
        simp [submitStep, htr, he]
      | error e => simp [submitStep, htr]

def failingStructure (_m : StructureMode) (_inp : String) : Except String String :=
  Except.error "boom"

def sampleForm : FormInputs :=
  { user_name := "u", role := "r", entry_datetime := "2024-01-01",
    manufacturer := "m", equipment_type := "e", model := "mod",
    spec2 := "s2", spec3 := "s3", notes := "n" }

def sampleSession : SessionState :=
  { processing := false, transcribed := false, submitted := false,
    submission_data := none, audio_bytes_to_save := none, manual_pdf := none,
    qa_text := "Q1: q\nA1: a" }

theorem structuring_failure_preserves_draft_witness :
    (submitStep sampleForm false true none oracleAlwaysFails failingStructure
        sampleSession).state.qa_text = "Q1: q\nA1: a" ∧
    (submitStep sampleForm false true none oracleAlwaysFails failingStructure
        sampleSession).state.submission_data = none := by
  have h := structuring_failure_preserves_draft sampleForm false true none
    oracleAlwaysFails failingStructure sampleSession (by decide)
    (fun m inp => ⟨"boom", rfl⟩)
  exact ⟨h.1, h.2.1⟩

end DykScribe
